import Mathlib

/-!
Shallow embedding of the encryption-service repository (Rust) and proofs of
the frozen claims about it.

Source layout referenced throughout:
  * `src/config/mod.rs`        -- `AppConfig`, `SchedulerStrategy`, `CrudApiInstance`,
                                  `AppConfig::from_env`, `AppConfig::validate`
  * `src/scheduler/mod.rs`     -- `CrudApiScheduler`: health table, `get_healthy_instances`,
                                  `select_instance`, `perform_health_check`
  * `src/cache/mod.rs`         -- `CacheManager`: time-bucketed append-only jsonl files
  * `src/test_instance/mod.rs` -- `TestInstanceManager::create_test_instance`
  * `src/crypto/mod.rs`        -- `EncryptionUtils::decrypt_aes_256_gcm`
  * `src/service/mod.rs`       -- `EncryptionService::encrypt` / `decrypt`

Modelling conventions:
  * Rust `u64`/`usize` timestamps and counters are `Nat` (no overflow is
    reachable on the studied paths, all arithmetic is additions and mod).
  * Network and cryptographic collaborators (HTTP calls, the AEAD primitive,
    HKDF, UTF-8 decoding) are passed in as explicit oracle parameters: the
    embedding models the repository's control flow over their outcomes.
  * Rust `Result<T, E>` via `anyhow` is `Except String T` (the error payload
    is irrelevant to every claim; messages are not reproduced).
  * A Rust panic (an outcome distinct from `Err`) is modelled by a dedicated
    `PanicOr` wrapper where it matters (`crypto`).
-/

namespace EncSvc

/-! ## Scheduler data model (src/scheduler/mod.rs, src/config/mod.rs) -/

/-- `SchedulerStrategy` from src/config/mod.rs (serde names: "single",
"read_write_split", "load_balance"). -/
inductive SchedulerStrategy where
  | Single
  | ReadWriteSplit
  | LoadBalance
  deriving DecidableEq, Repr

/-- `CrudApiInstance` from src/config/mod.rs. `instance_type` is one of
"read", "write", "mixed" in validated configurations. -/
structure CrudApiInstance where
  id : String
  url : String
  instance_type : String
  timeout : Nat
  retries : Nat
  deriving DecidableEq, Repr

/-- `InstanceHealthStatus` from src/scheduler/mod.rs. -/
inductive InstanceHealthStatus where
  | Healthy
  | Unhealthy
  | Unknown
  deriving DecidableEq, Repr

/-- The shared health table `instance_health`: a vector of
`(CrudApiInstance, InstanceHealthStatus)` pairs, in registry order. -/
abbrev HealthTable := List (CrudApiInstance × InstanceHealthStatus)

/-- Initial health table built by `CrudApiScheduler::new`: every configured
instance is paired with `InstanceHealthStatus::Unknown`. -/
def init_instance_health (instances : List CrudApiInstance) : HealthTable :=
  instances.map (fun inst => (inst, InstanceHealthStatus.Unknown))

/-- `CrudApiScheduler::get_healthy_instances`: keep the pairs whose status is
`Healthy` and whose `instance_type` equals the requested one or is "mixed",
and return the instances. -/
def get_healthy_instances (table : HealthTable) (instance_type : String) :
    List CrudApiInstance :=
  (table.filter (fun p =>
      p.2 = InstanceHealthStatus.Healthy ∧
      (p.1.instance_type = instance_type ∨ p.1.instance_type = "mixed"))).map Prod.fst

/-- `CrudApiScheduler::select_instance`, as a pure function of the strategy,
the current health table, the load-balance counter and the direction.
Returns the selection result together with the counter after the call (the
counter is only touched on the non-empty `LoadBalance` path, mirroring the
early return before the counter lock in the source). -/
def select_instance (strategy : SchedulerStrategy) (table : HealthTable)
    (counter : Nat) (is_write_operation : Bool) :
    Except String CrudApiInstance × Nat :=
  match strategy with
  | SchedulerStrategy.Single =>
      let healthy_instances := get_healthy_instances table "mixed"
      match healthy_instances.head? with
      | some inst => (Except.ok inst, counter)
      | none => (Except.error "no healthy CRUD API instance available", counter)
  | SchedulerStrategy.ReadWriteSplit =>
      if is_write_operation then
        match (get_healthy_instances table "write").head? with
        | some inst => (Except.ok inst, counter)
        | none => (Except.error "no healthy write instance available", counter)
      else
        match (get_healthy_instances table "read").head? with
        | some inst => (Except.ok inst, counter)
        | none => (Except.error "no healthy read instance available", counter)
  | SchedulerStrategy.LoadBalance =>
      let instance_type := if is_write_operation then "write" else "read"
      let healthy_instances := get_healthy_instances table instance_type
      if h : healthy_instances.isEmpty then
        (Except.error "no healthy instance available", counter)
      else
        let index := counter % healthy_instances.length
        (Except.ok (healthy_instances.get ⟨index, by
          exact Nat.mod_lt _ (List.length_pos.mpr (by
            simpa [List.isEmpty_iff] using h))⟩), counter + 1)

/-! ## Health probing (src/scheduler/mod.rs, `perform_health_check`) -/

/-- Outcome of one HTTP health probe, as the source discriminates it:
either the transport call failed (`Err(_)` from `send()`), or a response
arrived with a success/non-success status and a body whose JSON parse
either failed (`none`) or produced a `status` field value. -/
inductive ProbeOutcome where
  | transportError
  | response (is_success : Bool) (body_status : Option String)
  deriving DecidableEq, Repr

/-- The per-instance status computation inside
`CrudApiScheduler::perform_health_check` (the `match ... send().await` block). -/
def probe_status (outcome : ProbeOutcome) : InstanceHealthStatus :=
  match outcome with
  | ProbeOutcome.transportError => InstanceHealthStatus.Unhealthy
  | ProbeOutcome.response is_success body_status =>
      if is_success then
        match body_status with
        | some health_response_status =>
            if health_response_status = "ok" then InstanceHealthStatus.Healthy
            else InstanceHealthStatus.Unhealthy
        | none => InstanceHealthStatus.Unhealthy
      else InstanceHealthStatus.Unhealthy

/-- One tick of `CrudApiScheduler::perform_health_check`: snapshot the
instances, compute `new_health_status` per instance from the probe outcomes,
then apply the updates position-wise (the source writes an entry only when
the status changed; the resulting table contents are the same either way). -/
def perform_health_check (table : HealthTable)
    (probe : CrudApiInstance → ProbeOutcome) : HealthTable :=
  let new_health_status : HealthTable :=
    (table.map Prod.fst).map (fun inst => (inst, probe_status (probe inst)))
  (table.zip new_health_status).map (fun q =>
    if q.1.2 = q.2.2 then q.1 else (q.1.1, q.2.2))

/-! ## Fallback ("test") instance manager (src/test_instance/mod.rs) -/

/-- `TestInstanceState` from src/test_instance/mod.rs. -/
inductive TestInstanceState where
  | NotCreated
  | Created
  | Expired
  deriving DecidableEq, Repr

/-- `TestInstanceConfig` from src/test_instance/mod.rs. The source field
`db_prefix` is rendered here as `db_prefix_str`. -/
structure TestInstanceConfig where
  id : String
  url : String
  db_prefix_str : String
  created_at : Nat
  expired_at : Nat
  state : TestInstanceState
  deriving DecidableEq, Repr

/-- The fresh record built on the non-reuse path of
`TestInstanceManager::create_test_instance` (the source's mock data), with
`created_at = now` and `expired_at = created_at + 172800` (48 hours). -/
def fresh_test_instance (now : Nat) : TestInstanceConfig :=
  { id := "test-instance-01"
    url := "http://localhost:8001"
    db_prefix_str := "test_"
    created_at := now
    expired_at := now + 172800
    state := TestInstanceState.Created }

/-- `TestInstanceManager::create_test_instance` as a pure function of the
current slot (`self.test_instance`) and the current timestamp. Returns the
record handed back to the caller together with the slot after the call.
Reuse requires the stored record to be `Created` and `now < expired_at`;
every other case installs and returns a fresh record. -/
def create_test_instance (slot : Option TestInstanceConfig) (now : Nat) :
    TestInstanceConfig × Option TestInstanceConfig :=
  match slot with
  | some inst =>
      if inst.state = TestInstanceState.Created ∧ now < inst.expired_at then
        (inst, slot)
      else
        (fresh_test_instance now, some (fresh_test_instance now))
  | none => (fresh_test_instance now, some (fresh_test_instance now))

/-! ## Write-behind cache (src/cache/mod.rs) -/

/-- `EncryptCacheData` from src/cache/mod.rs. -/
structure EncryptCacheData where
  data : String
  password : String
  resource_type : String
  encrypted_data : String
  deriving DecidableEq, Repr

/-- `DecryptCacheData` from src/cache/mod.rs. -/
structure DecryptCacheData where
  encrypted_data : String
  password : String
  resource_type : String
  resource_id : Option String
  decrypted_data : String
  deriving DecidableEq, Repr

/-- `CacheDataType` from src/cache/mod.rs. -/
inductive CacheDataType where
  | Encrypt (d : EncryptCacheData)
  | Decrypt (d : DecryptCacheData)
  deriving DecidableEq, Repr

/-- `CacheEntry` from src/cache/mod.rs. -/
structure CacheEntry where
  timestamp : Nat
  data_type : CacheDataType
  deriving DecidableEq, Repr

/-- `CacheManager` configuration fields (src/cache/mod.rs). The source field
`temp_file_prefix` is rendered here as `temp_file_stem`. -/
structure CacheManager where
  cache_dir : String
  temp_file_stem : String
  update_interval : Nat
  retention_time : Nat
  deriving DecidableEq, Repr

/-- `CacheManager::new` defaults. -/
def CacheManager.mk_default : CacheManager :=
  { cache_dir := "data/cache"
    temp_file_stem := "crud_api_cache"
    update_interval := 3600
    retention_time := 86400 }

/-- The cache directory contents, keyed by time bucket: bucket `b` stands for
the file `{cache_dir}/{temp_file_stem}_{b}.jsonl` (the rendered file name is
injective in `b`), and its contents are the `CacheEntry` records serialized
one per line by `write_cache` (each such line deserializes back to the same
record, so the per-line representation is kept abstract). -/
abbrev CacheDir := List (Nat × List CacheEntry)

/-- The bucket of `CacheManager::get_current_cache_file`:
`timestamp / update_interval`. -/
def cache_file_bucket (cm : CacheManager) (now : Nat) : Nat :=
  now / cm.update_interval

/-- The full path string produced by `CacheManager::get_current_cache_file`
for a bucket: `{cache_dir}/{temp_file_stem}_{bucket}.jsonl`. -/
def cache_file_name (cm : CacheManager) (bucket : Nat) : String :=
  cm.cache_dir ++ "/" ++ cm.temp_file_stem ++ "_" ++ toString bucket ++ ".jsonl"

/-- Append one serialized entry to a bucket file, creating the file when it
does not exist (`OpenOptions::new().create(true).append(true)`). -/
def append_to_file (dir : CacheDir) (bucket : Nat) (entry : CacheEntry) : CacheDir :=
  match dir with
  | [] => [(bucket, [entry])]
  | (b, lines) :: rest =>
      if b = bucket then (b, lines ++ [entry]) :: rest
      else (b, lines) :: append_to_file rest bucket entry

/-- `CacheManager::write_cache`: build a `CacheEntry` stamped with the current
time and append its serialization to the current bucket's file. -/
def write_cache (cm : CacheManager) (dir : CacheDir) (now : Nat)
    (data_type : CacheDataType) : CacheDir :=
  append_to_file dir (cache_file_bucket cm now)
    { timestamp := now, data_type := data_type }

/-- `CacheManager::read_all_cache`: walk every jsonl file in the directory
and collect every line that parses (every line written by `write_cache`
parses; the directory-iteration order is unspecified, which is why the
claims only speak about the result up to permutation). -/
def read_all_cache (dir : CacheDir) : List CacheEntry :=
  dir.foldr (fun f acc => f.2 ++ acc) []

/-- A sequence of `write_cache` calls, each with its own timestamp. -/
def write_cache_all (cm : CacheManager) (dir : CacheDir)
    (writes : List (Nat × CacheDataType)) : CacheDir :=
  writes.foldl (fun d w => write_cache cm d w.1 w.2) dir

/-! ## Cipher (src/crypto/mod.rs) -/

/-- Value of one base64 alphabet character (standard alphabet). -/
def b64_char_value (c : Char) : Option Nat :=
  if 'A' ≤ c ∧ c ≤ 'Z' then some (c.toNat - 'A'.toNat)
  else if 'a' ≤ c ∧ c ≤ 'z' then some (c.toNat - 'a'.toNat + 26)
  else if '0' ≤ c ∧ c ≤ '9' then some (c.toNat - '0'.toNat + 52)
  else if c = '+' then some 62
  else if c = '/' then some 63
  else none

/-- Base64 decoding of the `base64` crate's `general_purpose::STANDARD`
engine: input length must be a multiple of four, canonical `=` padding is
required, trailing bits must be zero. Decodes quartets of characters into
triples of bytes. -/
def b64_decode_chunks : List Char → Option (List Nat)
  | [] => some []
  | c1 :: c2 :: c3 :: c4 :: rest =>
      match b64_char_value c1, b64_char_value c2 with
      | some v1, some v2 =>
          if c3 = '=' then
            if c4 = '=' ∧ rest = [] then
              if v2 % 16 = 0 then some [v1 * 4 + v2 / 16] else none
            else none
          else
            match b64_char_value c3 with
            | some v3 =>
                if c4 = '=' then
                  if rest = [] then
                    if v3 % 4 = 0 then
                      some [v1 * 4 + v2 / 16, (v2 % 16) * 16 + v3 / 4]
                    else none
                  else none
                else
                  match b64_char_value c4, b64_decode_chunks rest with
                  | some v4, some tail =>
                      some ([v1 * 4 + v2 / 16, (v2 % 16) * 16 + v3 / 4,
                             (v3 % 4) * 64 + v4] ++ tail)
                  | _, _ => none
            | none => none
      | _, _ => none
  | _ => none

/-- `general_purpose::STANDARD.decode` over a string. -/
def base64_decode (s : String) : Option (List Nat) :=
  b64_decode_chunks s.toList

/-- Outcome of a Rust computation that may panic instead of returning. -/
inductive PanicOr (α : Type) where
  | panicked
  | value (a : α)
  deriving DecidableEq, Repr

/-- Cryptographic collaborators of `EncryptionUtils::decrypt_aes_256_gcm`
(spec section 6 treats the cipher primitive as an external collaborator):
`generate_key` is the HKDF derivation of `EncryptionUtils::generate_key`,
`aead_decrypt key nonce ciphertext` is `Aes256Gcm::decrypt` (`none` on
authentication failure), `utf8_decode` is `String::from_utf8`. -/
structure AeadOracle where
  generate_key : String → Option (List Nat)
  aead_decrypt : List Nat → List Nat → List Nat → Option (List Nat)
  utf8_decode : List Nat → Option String

/-- `EncryptionUtils::decrypt_aes_256_gcm`: base64-decode, then
`combined.split_at(12)` — which PANICS when the decoded length is below 12
(`split_at` panics when `mid > len`) — then HKDF key derivation, AEAD
decryption, and UTF-8 decoding, each failure reported as `Err`. -/
def decrypt_aes_256_gcm (oracle : AeadOracle)
    (encrypted_data password : String) : PanicOr (Except String String) :=
  match base64_decode encrypted_data with
  | none => PanicOr.value (Except.error "base64 decode failed")
  | some combined =>
      if combined.length < 12 then PanicOr.panicked
      else
        let nonce_bytes := combined.take 12
        let ciphertext := combined.drop 12
        match oracle.generate_key password with
        | none => PanicOr.value (Except.error "HKDF key generation failed")
        | some key =>
            match oracle.aead_decrypt key nonce_bytes ciphertext with
            | none => PanicOr.value (Except.error "AES-GCM decryption failed")
            | some plaintext_bytes =>
                match oracle.utf8_decode plaintext_bytes with
                | none => PanicOr.value (Except.error "plaintext is not UTF-8")
                | some plaintext => PanicOr.value (Except.ok plaintext)

/-! ## Orchestration service (src/service/mod.rs)

`EncryptionService::encrypt` / `decrypt` are embedded as pure functions of
the request, the configured service role, and oracles for the outcomes of
their collaborator calls (cipher, scheduler selection, backend HTTP call,
cache write, fallback-instance creation and cache replay). -/

/-- `EncryptRequest` from src/service/mod.rs. -/
structure EncryptRequest where
  data : String
  password : String
  resource_type : String
  deriving DecidableEq, Repr

/-- `EncryptResponse` from src/service/mod.rs. -/
structure EncryptResponse where
  encrypted_data : String
  resource_id : Option String
  deriving DecidableEq, Repr

/-- `DecryptRequest` from src/service/mod.rs. -/
structure DecryptRequest where
  encrypted_data : String
  password : String
  resource_type : String
  resource_id : Option String
  deriving DecidableEq, Repr

/-- `DecryptResponse` from src/service/mod.rs. -/
structure DecryptResponse where
  data : String
  resource_id : Option String
  deriving DecidableEq, Repr

/-- Request-level errors of the orchestration service (`anyhow` in the
source; discriminated here by the bail site). -/
inductive ServiceError where
  | roleNotAllowed
  | cipher (msg : String)
  | responseParse
  | responseMissingData
  deriving DecidableEq, Repr

/-- Outcome of the backend write call in `EncryptionService::encrypt`
(`POST {url}/{resource_type}` through `send().await.and_then(error_for_status)`):
`callFailed` covers transport errors, timeouts and non-success statuses;
`callOk parsed` is a success response whose body JSON parse failed
(`parsed = none`) or produced an envelope whose `data.id` string is
`resource_id` (`parsed = some resource_id`). -/
inductive WriteCallResult where
  | callFailed
  | callOk (parsed : Option (Option String))
  deriving DecidableEq, Repr

/-- `EncryptionService::encrypt`. `cache_write`, `create_ti` and
`import_cache` are the outcomes of `CacheManager::write_cache`,
`TestInstanceManager::create_test_instance` and
`TestInstanceManager::import_cache_data`; the source only logs their
errors, so they do not influence the returned value. -/
def service_encrypt (role : String) (request : EncryptRequest)
    (cipher_result : Except String String)
    (selection : Except String CrudApiInstance)
    (write_call : CrudApiInstance → WriteCallResult)
    (cache_write : Except String Unit)
    (create_ti : Except String TestInstanceConfig)
    (import_cache : Except String Unit) :
    Except ServiceError EncryptResponse :=
  if role ≠ "encrypt" ∧ role ≠ "mixed" then
    Except.error ServiceError.roleNotAllowed
  else
    match cipher_result with
    | Except.error e => Except.error (ServiceError.cipher e)
    | Except.ok encrypted_data =>
        match selection with
        | Except.ok inst =>
            match write_call inst with
            | WriteCallResult.callOk parsed =>
                match parsed with
                | none => Except.error ServiceError.responseParse
                | some resource_id =>
                    Except.ok { encrypted_data := encrypted_data,
                                resource_id := resource_id }
            | WriteCallResult.callFailed =>
                Except.ok { encrypted_data := encrypted_data, resource_id := none }
        | Except.error _ =>
            Except.ok { encrypted_data := encrypted_data, resource_id := none }

/-- Outcome of the backend fetch call in `EncryptionService::decrypt`
(`GET {url}/{resource_type}/{resource_id}?select=encrypted_data`):
`callFailed` covers transport errors, timeouts and non-success statuses;
`callOk none` is a success response whose body JSON parse failed;
`callOk (some ed)` a parsed envelope whose `data.encrypted_data` string
is `ed` (absent when the field is missing or not a string). -/
inductive FetchCallResult where
  | callFailed
  | callOk (parsed : Option (Option String))
  deriving DecidableEq, Repr

/-- `EncryptionService::decrypt`. `cipher` is
`EncryptionUtils::decrypt(ciphertext, password)`; `cache_write` is the
outcome of the audit-trail `CacheManager::write_cache`, whose error the
source only logs. -/
def service_decrypt (role : String) (request : DecryptRequest)
    (selection : Except String CrudApiInstance)
    (fetch_call : CrudApiInstance → FetchCallResult)
    (cipher : String → String → Except String String)
    (cache_write : Except String Unit) :
    Except ServiceError DecryptResponse :=
  if role ≠ "decrypt" ∧ role ≠ "mixed" then
    Except.error ServiceError.roleNotAllowed
  else
    let fetched : Except ServiceError String :=
      match request.resource_id with
      | some _ =>
          match selection with
          | Except.ok inst =>
              match fetch_call inst with
              | FetchCallResult.callOk none =>
                  Except.error ServiceError.responseParse
              | FetchCallResult.callOk (some none) =>
                  Except.error ServiceError.responseMissingData
              | FetchCallResult.callOk (some (some ed)) => Except.ok ed
              | FetchCallResult.callFailed => Except.ok request.encrypted_data
          | Except.error _ => Except.ok request.encrypted_data
      | none => Except.ok request.encrypted_data
    match fetched with
    | Except.error e => Except.error e
    | Except.ok encrypted_data =>
        match cipher encrypted_data request.password with
        | Except.error e => Except.error (ServiceError.cipher e)
        | Except.ok data =>
            Except.ok { data := data, resource_id := request.resource_id }

/-! ## Configuration loading (src/config/mod.rs) -/

/-- The process environment: a finite association of variable names to
values. `std::env::var` is `lookup` (first hit wins). -/
abbrev Env := List (String × String)

/-- `env::var(key)` (`Err` when unset is rendered as `none`). -/
def env_var (env : Env) (key : String) : Option String :=
  env.lookup key

/-- `env::var(key).unwrap_or(dflt)`. -/
def env_or (env : Env) (key dflt : String) : String :=
  (env_var env key).getD dflt

/-- `env::var(key).unwrap_or_default()`. -/
def env_or_empty (env : Env) (key : String) : String :=
  env_or env key ""

/-- Digit-string accumulation for Rust's integer `parse`. -/
def digits_to_nat (cs : List Char) : Option Nat :=
  cs.foldl (fun acc? c =>
    acc?.bind (fun acc =>
      if c.isDigit then some (acc * 10 + (c.toNat - '0'.toNat)) else none))
    (some 0)

/-- Rust `str::parse::<uN>()`: optional leading `+`, at least one ASCII
digit, nothing else, value within the type's range. -/
def parse_unsigned (bits : Nat) (s : String) : Option Nat :=
  let cs :=
    match s.toList with
    | '+' :: rest => rest
    | cs => cs
  if cs.isEmpty then none
  else
    match digits_to_nat cs with
    | some n => if n < 2 ^ bits then some n else none
    | none => none

/-- Rust `str::parse::<u64>()`. -/
def parse_u64 (s : String) : Option Nat := parse_unsigned 64 s

/-- Rust `str::parse::<u32>()`. -/
def parse_u32 (s : String) : Option Nat := parse_unsigned 32 s

/-- Rust `str::parse::<u16>()`. -/
def parse_u16 (s : String) : Option Nat := parse_unsigned 16 s

/-- Rust `str::parse::<i64>()`: optional sign, at least one digit, value
within the two's-complement 64-bit range. -/
def parse_i64 (s : String) : Option Int :=
  let (neg, cs) :=
    match s.toList with
    | '-' :: rest => (true, rest)
    | '+' :: rest => (false, rest)
    | cs => (false, cs)
  if cs.isEmpty then none
  else
    match digits_to_nat cs with
    | some n =>
        if neg then
          if n ≤ 2 ^ 63 then some (-(n : Int)) else none
        else
          if n < 2 ^ 63 then some (n : Int) else none
    | none => none

/-- Rust `str::parse::<bool>()`: exactly "true" or "false". -/
def parse_bool (s : String) : Option Bool :=
  if s = "true" then some true
  else if s = "false" then some false
  else none

/-- `ServerConfig` from src/config/mod.rs. -/
structure ServerConfig where
  host : String
  port : Nat
  https : Bool
  deriving DecidableEq, Repr

/-- `JwtConfig` from src/config/mod.rs. -/
structure JwtConfig where
  secret : String
  expires_in : Int
  refresh_in : Int
  deriving DecidableEq, Repr

/-- `EncryptionConfig` from src/config/mod.rs. -/
structure EncryptionConfig where
  algorithm : String
  key_length : Nat
  iterations : Nat
  salt : String
  deriving DecidableEq, Repr

/-- `ServiceRoleConfig` from src/config/mod.rs. -/
structure ServiceRoleConfig where
  role : String
  id : String
  deriving DecidableEq, Repr

/-- `CrudApiConfig` from src/config/mod.rs. -/
structure CrudApiConfig where
  instances : List CrudApiInstance
  strategy : SchedulerStrategy
  health_check_interval : Nat
  timeout : Nat
  retries : Nat
  deriving DecidableEq, Repr

/-- `AppConfig` from src/config/mod.rs. -/
structure AppConfig where
  server : ServerConfig
  jwt : JwtConfig
  encryption : EncryptionConfig
  service : ServiceRoleConfig
  crud_api : CrudApiConfig
  deriving DecidableEq, Repr

/-- `Option` to `Except` with an error message (Rust's `?` on a parse). -/
def ofOption {α : Type} (o : Option α) (msg : String) : Except String α :=
  match o with
  | some a => Except.ok a
  | none => Except.error msg

/-- The `load_balance` branch's instance-loading loop in
`AppConfig::from_env`: read `CRUD_API_INSTANCE_{index}_*` variables in
increasing index order, stop at the first index whose id or url is missing
or empty, propagate parse failures. The loop is written with explicit fuel;
the source loop terminates at the first unconfigured index, and since the
environment is a finite list, an index beyond `env.length` always has its
variables unset, so `env.length + 1` fuel is never exhausted. -/
def load_lb_instances (env : Env) : Nat → Nat → Except String (List CrudApiInstance)
  | 0, _ => Except.error "unreachable: fuel exhausted"
  | fuel + 1, index =>
      let instance_id := env_or_empty env ("CRUD_API_INSTANCE_" ++ toString index ++ "_ID")
      let instance_url := env_or_empty env ("CRUD_API_INSTANCE_" ++ toString index ++ "_URL")
      let instance_type := env_or env ("CRUD_API_INSTANCE_" ++ toString index ++ "_TYPE") "mixed"
      match parse_u64 (env_or env ("CRUD_API_INSTANCE_" ++ toString index ++ "_TIMEOUT") "5000") with
      | none => Except.error "invalid instance timeout"
      | some instance_timeout =>
          match parse_u32 (env_or env ("CRUD_API_INSTANCE_" ++ toString index ++ "_RETRIES") "3") with
          | none => Except.error "invalid instance retries"
          | some instance_retries =>
              if instance_id = "" ∨ instance_url = "" then Except.ok []
              else
                match load_lb_instances env fuel (index + 1) with
                | Except.error e => Except.error e
                | Except.ok rest =>
                    Except.ok ({ id := instance_id, url := instance_url,
                                 instance_type := instance_type,
                                 timeout := instance_timeout,
                                 retries := instance_retries } :: rest)

/-- The read-write-split instance pair built by `AppConfig::from_env` (used
by both the "read_write_split" branch and the default branch). -/
def rws_instances (write_instance_url read_instance_url : String)
    (write_instance_timeout write_instance_retries
     read_instance_timeout read_instance_retries : Nat) : List CrudApiInstance :=
  [{ id := "write-01", url := write_instance_url, instance_type := "write",
     timeout := write_instance_timeout, retries := write_instance_retries },
   { id := "read-01", url := read_instance_url, instance_type := "read",
     timeout := read_instance_timeout, retries := read_instance_retries }]

/-- `AppConfig::from_env`. Every fallible step is matched explicitly so that
failure propagation mirrors the `?` operators of the source. -/
def from_env (env : Env) : Except String AppConfig :=
  let backend_type := env_or env "CRUD_API_BACKEND_TYPE" "read_write_split"
  match env_var env "CRUD_API_WRITE_INSTANCE_URL" with
  | none => Except.error "CRUD_API_WRITE_INSTANCE_URL must be set"
  | some write_instance_url =>
  match parse_u64 (env_or env "CRUD_API_WRITE_INSTANCE_TIMEOUT" "5000") with
  | none => Except.error "invalid write instance timeout"
  | some write_instance_timeout =>
  match parse_u32 (env_or env "CRUD_API_WRITE_INSTANCE_RETRIES" "3") with
  | none => Except.error "invalid write instance retries"
  | some write_instance_retries =>
  let read_instance_url := env_or env "CRUD_API_READ_INSTANCE_URL" write_instance_url
  match parse_u64 (env_or env "CRUD_API_READ_INSTANCE_TIMEOUT" "5000") with
  | none => Except.error "invalid read instance timeout"
  | some read_instance_timeout =>
  match parse_u32 (env_or env "CRUD_API_READ_INSTANCE_RETRIES" "3") with
  | none => Except.error "invalid read instance retries"
  | some read_instance_retries =>
  match parse_u64 (env_or env "CRUD_API_HEALTH_CHECK_INTERVAL" "30") with
  | none => Except.error "invalid health check interval"
  | some health_check_interval =>
  let instances_strategy : Except String (List CrudApiInstance × SchedulerStrategy) :=
    if backend_type = "single" then
      Except.ok
        ([{ id := "write-01", url := write_instance_url, instance_type := "write",
            timeout := write_instance_timeout, retries := write_instance_retries },
          { id := "read-01", url := write_instance_url, instance_type := "read",
            timeout := read_instance_timeout, retries := read_instance_retries }],
         SchedulerStrategy.Single)
    else if backend_type = "read_write_split" then
      Except.ok
        (rws_instances write_instance_url read_instance_url
           write_instance_timeout write_instance_retries
           read_instance_timeout read_instance_retries,
         SchedulerStrategy.ReadWriteSplit)
    else if backend_type = "load_balance" then
      match load_lb_instances env (env.length + 1) 0 with
      | Except.error e => Except.error e
      | Except.ok loaded =>
          let instances :=
            if loaded.isEmpty then
              [{ id := "crud-01", url := write_instance_url,
                 instance_type := "mixed",
                 timeout := write_instance_timeout,
                 retries := write_instance_retries }]
            else loaded
          Except.ok (instances, SchedulerStrategy.LoadBalance)
    else
      Except.ok
        (rws_instances write_instance_url read_instance_url
           write_instance_timeout write_instance_retries
           read_instance_timeout read_instance_retries,
         SchedulerStrategy.ReadWriteSplit)
  match instances_strategy with
  | Except.error e => Except.error e
  | Except.ok (instances, strategy) =>
  match parse_u16 (env_or env "SERVER_PORT" "9999") with
  | none => Except.error "invalid server port"
  | some port =>
  match parse_bool (env_or env "HTTPS" "false") with
  | none => Except.error "invalid HTTPS flag"
  | some https =>
  match parse_i64 (env_or env "JWT_EXPIRES_IN" "3600") with
  | none => Except.error "invalid JWT_EXPIRES_IN"
  | some expires_in =>
  match parse_i64 (env_or env "JWT_REFRESH_IN" "86400") with
  | none => Except.error "invalid JWT_REFRESH_IN"
  | some refresh_in =>
  match parse_u32 (env_or env "ENCRYPTION_KEY_LENGTH" "32") with
  | none => Except.error "invalid ENCRYPTION_KEY_LENGTH"
  | some key_length =>
  match parse_u32 (env_or env "ENCRYPTION_ITERATIONS" "100000") with
  | none => Except.error "invalid ENCRYPTION_ITERATIONS"
  | some iterations =>
  Except.ok
    { server :=
        { host := env_or env "SERVER_HOST" "0.0.0.0"
          port := port
          https := https }
      jwt :=
        { secret := env_or env "JWT_SECRET" "12345678901234567890"
          expires_in := expires_in
          refresh_in := refresh_in }
      encryption :=
        { algorithm := env_or env "ENCRYPTION_ALGORITHM" "aes-256-gcm"
          key_length := key_length
          iterations := iterations
          salt := env_or env "ENCRYPTION_SALT" "default_salt" }
      service :=
        { role := env_or env "SERVICE_ROLE" "mixed"
          id := env_or env "SERVICE_ID" "encryption-01" }
      crud_api :=
        { instances := instances
          strategy := strategy
          health_check_interval := health_check_interval
          timeout := write_instance_timeout
          retries := write_instance_retries } }

/-- The per-instance loop inside `AppConfig::validate` (bails on the first
invalid instance). -/
def validate_instances : List CrudApiInstance → Except String Unit
  | [] => Except.ok ()
  | inst :: rest =>
      if inst.id = "" then Except.error "instance id must not be empty"
      else if inst.url = "" then Except.error "instance url must not be empty"
      else if ¬ (inst.instance_type = "read" ∨ inst.instance_type = "write" ∨
                 inst.instance_type = "mixed") then
        Except.error "invalid instance type"
      else validate_instances rest

/-- `AppConfig::validate`: service role, JWT secret length (byte length in
the source; the strings involved are ASCII), non-empty instance list,
per-instance checks, then the strategy-specific instance-distribution
check — `Single` demands exactly one instance. -/
def validate (config : AppConfig) : Except String Unit :=
  if ¬ (config.service.role = "encrypt" ∨ config.service.role = "decrypt" ∨
        config.service.role = "mixed") then
    Except.error "invalid service role"
  else if config.jwt.secret.utf8ByteSize < 16 then
    Except.error "JWT secret must be at least 16 characters"
  else if config.crud_api.instances.isEmpty then
    Except.error "CRUD API instance list must not be empty"
  else
    match validate_instances config.crud_api.instances with
    | Except.error e => Except.error e
    | Except.ok _ =>
        match config.crud_api.strategy with
        | SchedulerStrategy.ReadWriteSplit =>
            if ¬ config.crud_api.instances.any (fun i =>
                  i.instance_type = "write" ∨ i.instance_type = "mixed") then
              Except.error "read-write split requires a write or mixed instance"
            else if ¬ config.crud_api.instances.any (fun i =>
                  i.instance_type = "read" ∨ i.instance_type = "mixed") then
              Except.error "read-write split requires a read or mixed instance"
            else Except.ok ()
        | SchedulerStrategy.LoadBalance =>
            if config.crud_api.instances.length < 1 then
              Except.error "load balance requires at least one instance"
            else Except.ok ()
        | SchedulerStrategy.Single =>
            if config.crud_api.instances.length ≠ 1 then
              Except.error "single mode requires exactly one instance"
            else Except.ok ()

/-! ## Derived helpers used by the statements -/

/-- The candidate list of the `LoadBalance` branch of `select_instance`
(the source's `get_healthy_instances(if is_write { "write" } else { "read" })`). -/
def lb_candidates (table : HealthTable) (is_write_operation : Bool) :
    List CrudApiInstance :=
  get_healthy_instances table (if is_write_operation then "write" else "read")

/-- The instance type each `select_instance` arm passes to
`get_healthy_instances`: "mixed" under `Single`, and "write"/"read" by
direction under the other two strategies. An instance is a CANDIDATE of a
selection when its `instance_type` equals this string or is "mixed" —
the disjunction tested by the `get_healthy_instances` filter. -/
def requested_instance_type (strategy : SchedulerStrategy)
    (is_write_operation : Bool) : String :=
  match strategy with
  | SchedulerStrategy.Single => "mixed"
  | SchedulerStrategy.ReadWriteSplit =>
      if is_write_operation then "write" else "read"
  | SchedulerStrategy.LoadBalance =>
      if is_write_operation then "write" else "read"

/-- The load-balance counter after `k` consecutive `select_instance` calls
against a fixed health table, starting from `counter`. -/
def select_counter_after (strategy : SchedulerStrategy) (table : HealthTable)
    (is_write_operation : Bool) (counter : Nat) : Nat → Nat
  | 0 => counter
  | k + 1 =>
      (select_instance strategy table
        (select_counter_after strategy table is_write_operation counter k)
        is_write_operation).2

/-- The result of the `k`-th (0-based) of a series of consecutive
`select_instance` calls against a fixed health table. -/
def nth_selection (strategy : SchedulerStrategy) (table : HealthTable)
    (is_write_operation : Bool) (counter k : Nat) :
    Except String CrudApiInstance :=
  (select_instance strategy table
    (select_counter_after strategy table is_write_operation counter k)
    is_write_operation).1

/-! ## Concrete sample values (used by witnesses and counterexamples) -/

/-- A concrete "write" instance. -/
def write_inst : CrudApiInstance :=
  { id := "write-01", url := "http://w.example", instance_type := "write",
    timeout := 5000, retries := 3 }

/-- A second concrete "write" instance. -/
def write_inst2 : CrudApiInstance :=
  { id := "write-02", url := "http://w2.example", instance_type := "write",
    timeout := 5000, retries := 3 }

/-- A concrete "read" instance. -/
def read_inst : CrudApiInstance :=
  { id := "read-01", url := "http://r.example", instance_type := "read",
    timeout := 5000, retries := 3 }

/-- A concrete "mixed" instance. -/
def mixed_inst : CrudApiInstance :=
  { id := "mixed-01", url := "http://m.example", instance_type := "mixed",
    timeout := 5000, retries := 3 }

/-- A concrete encrypt request. -/
def sample_encrypt_request : EncryptRequest :=
  { data := "secret", password := "pw1234567890", resource_type := "notes" }

/-- A concrete decrypt request carrying both a resource id and inline
ciphertext. -/
def sample_decrypt_request : DecryptRequest :=
  { encrypted_data := "AAAAAAAAAAAAAAAAAAAAAAAAAAAA", password := "pw1234567890",
    resource_type := "notes", resource_id := some "id-42" }

/-- A concrete cipher oracle for witnesses (its behaviour past the panic
site is irrelevant to the statements that use it). -/
def sample_aead_oracle : AeadOracle :=
  { generate_key := fun _ => some (List.replicate 32 0)
    aead_decrypt := fun _ _ _ => none
    utf8_decode := fun _ => none }

/-- A concrete cache payload. -/
def sample_payload (tag : String) : CacheDataType :=
  CacheDataType.Encrypt
    { data := tag, password := "pw", resource_type := "notes",
      encrypted_data := "ct-" ++ tag }

/-- A concrete environment that selects single-container mode and provides
the one mandatory variable. -/
def sample_single_env : Env :=
  [("CRUD_API_BACKEND_TYPE", "single"),
   ("CRUD_API_WRITE_INSTANCE_URL", "http://crud.example")]

/-- The configuration `from_env` produces for `sample_single_env` (all other
fields take their documented defaults). -/
def single_mode_config : AppConfig :=
  { server := { host := "0.0.0.0", port := 9999, https := false }
    jwt := { secret := "12345678901234567890", expires_in := 3600,
             refresh_in := 86400 }
    encryption := { algorithm := "aes-256-gcm", key_length := 32,
                    iterations := 100000, salt := "default_salt" }
    service := { role := "mixed", id := "encryption-01" }
    crud_api :=
      { instances :=
          [{ id := "write-01", url := "http://crud.example",
             instance_type := "write", timeout := 5000, retries := 3 },
           { id := "read-01", url := "http://crud.example",
             instance_type := "read", timeout := 5000, retries := 3 }]
        strategy := SchedulerStrategy.Single
        health_check_interval := 30
        timeout := 5000
        retries := 3 } }

/-! # Theorems -/

/-! ## Scheduler lemmas -/

theorem mem_get_healthy_instances (table : HealthTable) (t : String)
    (inst : CrudApiInstance) :
    inst ∈ get_healthy_instances table t ↔
      (inst, InstanceHealthStatus.Healthy) ∈ table ∧
      (inst.instance_type = t ∨ inst.instance_type = "mixed") := by
  unfold get_healthy_instances
  simp only [List.mem_map, List.mem_filter, decide_eq_true_eq]
  constructor
  · rintro ⟨⟨i, st⟩, ⟨hmem, hst, hrole⟩, rfl⟩
    subst hst
    exact ⟨hmem, hrole⟩
  · rintro ⟨hmem, hrole⟩
    exact ⟨(inst, InstanceHealthStatus.Healthy), ⟨hmem, rfl, hrole⟩, rfl⟩

theorem get_healthy_instances_eq_nil {table : HealthTable} (t : String)
    (h : ∀ p ∈ table,
      (p.1.instance_type = t ∨ p.1.instance_type = "mixed") →
      p.2 ≠ InstanceHealthStatus.Healthy) :
    get_healthy_instances table t = [] := by
  unfold get_healthy_instances
  rw [List.map_eq_nil_iff, List.filter_eq_nil_iff]
  intro p hp
  simp only [decide_eq_true_eq, not_and]
  intro hst hrole
  exact h p hp hrole hst

theorem perform_health_check_eq (table : HealthTable)
    (probe : CrudApiInstance → ProbeOutcome) :
    perform_health_check table probe =
      table.map (fun p => (p.1, probe_status (probe p.1))) := by
  unfold perform_health_check
  induction table with
  | nil => rfl
  | cons p t ih =>
      obtain ⟨inst, st⟩ := p
      simp only [List.map_cons, List.zip_cons_cons] at ih ⊢
      rw [ih]
      by_cases hst : st = probe_status (probe inst) <;> simp [hst]

/-- C7: the health state recorded for an instance by one health-check tick is
`Healthy` iff the HTTP probe returned a success status and its body parsed
to a `status` field equal to "ok"; EVERY other outcome (transport error or
timeout, non-success status, parse failure, or another status value)
records `Unhealthy`; one tick records `probe_status` of the probe outcome
for every instance in table order; and every never-probed instance starts
in the initial state `Unknown` installed by `CrudApiScheduler::new`. -/
theorem C7_probe_classification :
    (∀ outcome, probe_status outcome = InstanceHealthStatus.Healthy ↔
        outcome = ProbeOutcome.response true (some "ok")) ∧
    (∀ outcome, outcome ≠ ProbeOutcome.response true (some "ok") →
        probe_status outcome = InstanceHealthStatus.Unhealthy) ∧
    (∀ (table : HealthTable) (probe : CrudApiInstance → ProbeOutcome),
        perform_health_check table probe =
          table.map (fun p => (p.1, probe_status (probe p.1)))) ∧
    (∀ (instances : List CrudApiInstance) p,
        p ∈ init_instance_health instances →
        p.2 = InstanceHealthStatus.Unknown) := by
  refine ⟨?_, ?_, perform_health_check_eq, ?_⟩
  · intro outcome
    match outcome with
    | ProbeOutcome.transportError => simp [probe_status]
    | ProbeOutcome.response is_success body_status =>
        cases is_success with
        | false => cases body_status <;> simp [probe_status]
        | true =>
            cases body_status with
            | none => simp [probe_status]
            | some st => by_cases hst : st = "ok" <;> simp [probe_status, hst]
  · intro outcome hne
    match outcome with
    | ProbeOutcome.transportError => rfl
    | ProbeOutcome.response is_success body_status =>
        cases is_success with
        | false => cases body_status <;> rfl
        | true =>
            cases body_status with
            | none => rfl
            | some st =>
                by_cases hst : st = "ok"
                · subst hst
                  exact absurd rfl hne
                · simp [probe_status, hst]
  · intro instances p hp
    unfold init_instance_health at hp
    obtain ⟨inst, _, rfl⟩ := List.mem_map.mp hp
    rfl

/-- C7 witness: the theorem applied to the 200-with-ok outcome, to a
transport-error outcome and a 200-with-wrong-status outcome (both
`Unhealthy`), and to a concrete one-instance registry. -/
theorem C7_witness :
    probe_status (ProbeOutcome.response true (some "ok")) =
      InstanceHealthStatus.Healthy ∧
    probe_status ProbeOutcome.transportError =
      InstanceHealthStatus.Unhealthy ∧
    probe_status (ProbeOutcome.response true (some "error")) =
      InstanceHealthStatus.Unhealthy ∧
    (write_inst, InstanceHealthStatus.Unknown).2 = InstanceHealthStatus.Unknown :=
  ⟨(C7_probe_classification.1 (ProbeOutcome.response true (some "ok"))).mpr rfl,
   C7_probe_classification.2.1 ProbeOutcome.transportError (by decide),
   C7_probe_classification.2.1 (ProbeOutcome.response true (some "error"))
     (by decide),
   C7_probe_classification.2.2.2 [write_inst]
     (write_inst, InstanceHealthStatus.Unknown)
     (by simp [init_instance_health])⟩

/-- C5: for every strategy and every health-table state, `select_instance`
returns an error when no CANDIDATE instance (one whose role matches the
strategy's requested type, "mixed" included) has recorded health state
`Healthy` — healthy instances outside the candidate set do not prevent the
error — and whenever it returns an instance, that instance is a candidate
recorded `Healthy` in the table; in particular an instance still in the
initial `Unknown` state is never returned. -/
theorem C5_select_requires_healthy :
    ∀ (strategy : SchedulerStrategy) (table : HealthTable) (counter : Nat)
      (is_write_operation : Bool),
      ((∀ p ∈ table,
          (p.1.instance_type =
              requested_instance_type strategy is_write_operation ∨
           p.1.instance_type = "mixed") →
          p.2 ≠ InstanceHealthStatus.Healthy) →
        ∃ msg, (select_instance strategy table counter is_write_operation).1 =
          Except.error msg) ∧
      (∀ inst,
        (select_instance strategy table counter is_write_operation).1 =
          Except.ok inst →
        (inst, InstanceHealthStatus.Healthy) ∈ table ∧
        (inst.instance_type =
            requested_instance_type strategy is_write_operation ∨
         inst.instance_type = "mixed")) := by
  intro strategy table counter is_write_operation
  constructor
  · intro hall
    cases strategy with
    | Single =>
        have hnil : get_healthy_instances table "mixed" = [] :=
          get_healthy_instances_eq_nil "mixed" hall
        exact ⟨"no healthy CRUD API instance available",
          by simp [select_instance, hnil]⟩
    | ReadWriteSplit =>
        cases is_write_operation
        · have hnil : get_healthy_instances table "read" = [] :=
            get_healthy_instances_eq_nil "read" hall
          exact ⟨"no healthy read instance available",
            by simp [select_instance, hnil]⟩
        · have hnil : get_healthy_instances table "write" = [] :=
            get_healthy_instances_eq_nil "write" hall
          exact ⟨"no healthy write instance available",
            by simp [select_instance, hnil]⟩
    | LoadBalance =>
        cases is_write_operation
        · have hnil : get_healthy_instances table "read" = [] :=
            get_healthy_instances_eq_nil "read" hall
          exact ⟨"no healthy instance available",
            by simp [select_instance, hnil]⟩
        · have hnil : get_healthy_instances table "write" = [] :=
            get_healthy_instances_eq_nil "write" hall
          exact ⟨"no healthy instance available",
            by simp [select_instance, hnil]⟩
  · intro inst h
    cases strategy with
    | Single =>
        simp only [select_instance] at h
        rcases hh : (get_healthy_instances table "mixed").head? with _ | i <;>
          rw [hh] at h <;> simp at h
        subst h
        exact (mem_get_healthy_instances table "mixed" _).mp
          (List.mem_of_mem_head? (Option.mem_def.mpr hh))
    | ReadWriteSplit =>
        simp only [select_instance] at h
        cases is_write_operation <;> simp only [Bool.false_eq_true, if_false,
          if_true, reduceIte] at h
        · rcases hh : (get_healthy_instances table "read").head? with _ | i <;>
            rw [hh] at h <;> simp at h
          subst h
          exact (mem_get_healthy_instances table "read" _).mp
            (List.mem_of_mem_head? (Option.mem_def.mpr hh))
        · rcases hh : (get_healthy_instances table "write").head? with _ | i <;>
            rw [hh] at h <;> simp at h
          subst h
          exact (mem_get_healthy_instances table "write" _).mp
            (List.mem_of_mem_head? (Option.mem_def.mpr hh))
    | LoadBalance =>
        simp only [select_instance] at h
        by_cases he : (get_healthy_instances table
            (if is_write_operation then "write" else "read")).isEmpty
        · rw [dif_pos he] at h
          simp at h
        · rw [dif_neg he] at h
          simp only [Except.ok.injEq] at h
          rw [← h]
          cases is_write_operation
          · exact (mem_get_healthy_instances table "read" _).mp
              (List.get_mem _ _ _)
          · exact (mem_get_healthy_instances table "write" _).mp
              (List.get_mem _ _ _)

/-- C5 witness: a write-selection under `ReadWriteSplit` is rejected when the
only write-candidate is `Unhealthy`, even though a non-candidate read
instance is `Healthy`; an all-`Unknown` never-probed table is rejected;
and a returned instance is recorded `Healthy` and is a candidate. -/
theorem C5_witness :
    (∃ msg, (select_instance SchedulerStrategy.ReadWriteSplit
        [(write_inst, InstanceHealthStatus.Unhealthy),
         (read_inst, InstanceHealthStatus.Healthy)] 0 true).1 =
        Except.error msg) ∧
    (∃ msg, (select_instance SchedulerStrategy.Single
        [(mixed_inst, InstanceHealthStatus.Unknown)] 0 true).1 =
        Except.error msg) ∧
    ((mixed_inst, InstanceHealthStatus.Healthy) ∈
        [(mixed_inst, InstanceHealthStatus.Healthy)] ∧
      (mixed_inst.instance_type =
          requested_instance_type SchedulerStrategy.Single true ∨
       mixed_inst.instance_type = "mixed")) :=
  ⟨(C5_select_requires_healthy SchedulerStrategy.ReadWriteSplit
      [(write_inst, InstanceHealthStatus.Unhealthy),
       (read_inst, InstanceHealthStatus.Healthy)] 0 true).1 (by decide),
   (C5_select_requires_healthy SchedulerStrategy.Single
      [(mixed_inst, InstanceHealthStatus.Unknown)] 0 true).1 (by decide),
   (C5_select_requires_healthy SchedulerStrategy.Single
      [(mixed_inst, InstanceHealthStatus.Healthy)] 0 true).2 mixed_inst rfl⟩

/-- C2 counterexample: a single healthy instance with role "mixed" IS among
the `LoadBalance` write-direction candidates and is returned by
`select_instance` — the filter in `get_healthy_instances` admits
`instance_type == "mixed"` for every requested type, `LoadBalance`
included, so the claim that mixed is never among the LoadBalance
candidates is false. -/
theorem C2_counterexample :
    get_healthy_instances [(mixed_inst, InstanceHealthStatus.Healthy)] "write" =
      [mixed_inst] ∧
    (select_instance SchedulerStrategy.LoadBalance
      [(mixed_inst, InstanceHealthStatus.Healthy)] 0 true).1 =
      Except.ok mixed_inst := by
  exact ⟨by decide, rfl⟩

/-- C2 (amended): under `LoadBalance`, `select_instance(is_write)` draws its
candidates from exactly the instances whose role is "write" (if is_write)
or "read" (otherwise) OR "mixed" and whose state is `Healthy` — the mixed
fallback applies to `LoadBalance` just as to the other two strategies. -/
theorem C2_loadbalance_includes_mixed :
    ∀ (table : HealthTable) (is_write_operation : Bool) (inst : CrudApiInstance),
      (inst ∈ lb_candidates table is_write_operation ↔
        (inst, InstanceHealthStatus.Healthy) ∈ table ∧
        (inst.instance_type = (if is_write_operation then "write" else "read") ∨
         inst.instance_type = "mixed")) ∧
      (∀ counter,
        (select_instance SchedulerStrategy.LoadBalance table counter
          is_write_operation).1 = Except.ok inst →
        inst ∈ lb_candidates table is_write_operation) := by
  intro table is_write_operation inst
  constructor
  · exact mem_get_healthy_instances table _ inst
  · intro counter h
    simp only [select_instance] at h
    by_cases he : (get_healthy_instances table
        (if is_write_operation then "write" else "read")).isEmpty
    · rw [dif_pos he] at h
      simp at h
    · rw [dif_neg he] at h
      simp only [Except.ok.injEq] at h
      rw [show lb_candidates table is_write_operation =
        get_healthy_instances table
          (if is_write_operation then "write" else "read") from rfl, ← h]
      exact List.get_mem _ _ _

/-- C2 (amended) witness: the theorem applied to a one-mixed-instance table
in the write direction. -/
theorem C2_amended_witness :
    mixed_inst ∈ lb_candidates [(mixed_inst, InstanceHealthStatus.Healthy)] true ∧
    mixed_inst ∈ lb_candidates [(mixed_inst, InstanceHealthStatus.Healthy)] true :=
  ⟨((C2_loadbalance_includes_mixed [(mixed_inst, InstanceHealthStatus.Healthy)]
      true mixed_inst).1).mpr ⟨by decide, Or.inr rfl⟩,
   (C2_loadbalance_includes_mixed [(mixed_inst, InstanceHealthStatus.Healthy)]
      true mixed_inst).2 0 rfl⟩

/-! ## Round-robin lemmas (C6) -/

theorem lb_select_step (table : HealthTable) (is_write_operation : Bool)
    (c : Nat) (hl : lb_candidates table is_write_operation ≠ []) :
    select_instance SchedulerStrategy.LoadBalance table c is_write_operation =
      (Except.ok ((lb_candidates table is_write_operation).get
        ⟨c % (lb_candidates table is_write_operation).length,
         Nat.mod_lt _ (List.length_pos.mpr hl)⟩), c + 1) := by
  have hne : ¬ ((get_healthy_instances table
      (if is_write_operation then "write" else "read")).isEmpty = true) := by
    rw [List.isEmpty_iff]
    exact hl
  simp only [select_instance]
  rw [dif_neg hne]
  rfl

theorem lb_counter_after (table : HealthTable) (is_write_operation : Bool)
    (c : Nat) (hl : lb_candidates table is_write_operation ≠ []) :
    ∀ k, select_counter_after SchedulerStrategy.LoadBalance table
      is_write_operation c k = c + k := by
  intro k
  induction k with
  | zero => rfl
  | succ k ih =>
      unfold select_counter_after
      rw [ih, lb_select_step table is_write_operation (c + k) hl]
      rfl

/-- C6: under `LoadBalance` with a fixed health table whose candidate list is
non-empty, the `k`-th consecutive selection returns the candidate at index
`(counter + k) mod N` and leaves the counter at `counter + k + 1`; over `N`
consecutive same-direction selections, the visited indices are pairwise
distinct and cover every candidate index, so each candidate is returned
exactly once, in round-robin order wrapping modulo `N`. -/
theorem C6_round_robin :
    ∀ (table : HealthTable) (is_write_operation : Bool) (counter : Nat)
      (hl : lb_candidates table is_write_operation ≠ []),
      (∀ k, nth_selection SchedulerStrategy.LoadBalance table
          is_write_operation counter k =
        Except.ok ((lb_candidates table is_write_operation).get
          ⟨(counter + k) % (lb_candidates table is_write_operation).length,
           Nat.mod_lt _ (List.length_pos.mpr hl)⟩)) ∧
      (∀ k, select_counter_after SchedulerStrategy.LoadBalance table
          is_write_operation counter (k + 1) = counter + k + 1) ∧
      (∀ j₁ j₂, j₁ < (lb_candidates table is_write_operation).length →
        j₂ < (lb_candidates table is_write_operation).length →
        (counter + j₁) % (lb_candidates table is_write_operation).length =
          (counter + j₂) % (lb_candidates table is_write_operation).length →
        j₁ = j₂) ∧
      (∀ i, i < (lb_candidates table is_write_operation).length →
        ∃ k, k < (lb_candidates table is_write_operation).length ∧
          (counter + k) % (lb_candidates table is_write_operation).length = i) := by
  intro table is_write_operation counter hl
  set l := lb_candidates table is_write_operation with hldef
  have hpos : 0 < l.length := List.length_pos.mpr hl
  have hinj : ∀ j₁ j₂, j₁ < l.length → j₂ < l.length →
      (counter + j₁) % l.length = (counter + j₂) % l.length → j₁ = j₂ := by
    intro j₁ j₂ h₁ h₂ heq
    have hmod : j₁ % l.length = j₂ % l.length :=
      Nat.ModEq.add_left_cancel' counter heq
    rwa [Nat.mod_eq_of_lt h₁, Nat.mod_eq_of_lt h₂] at hmod
  refine ⟨?_, ?_, hinj, ?_⟩
  · intro k
    unfold nth_selection
    rw [lb_counter_after table is_write_operation counter hl,
      lb_select_step table is_write_operation (counter + k) hl]
  · intro k
    rw [lb_counter_after table is_write_operation counter hl]
    rfl
  · intro i hi
    have hsurj : Function.Surjective
        (fun j : Fin l.length => (⟨(counter + j) % l.length,
          Nat.mod_lt _ hpos⟩ : Fin l.length)) := by
      apply Finite.surjective_of_injective
      intro j₁ j₂ hj
      exact Fin.ext (hinj j₁ j₂ j₁.isLt j₂.isLt (congrArg Fin.val hj))
    obtain ⟨k, hk⟩ := hsurj ⟨i, hi⟩
    exact ⟨k, k.isLt, congrArg Fin.val hk⟩

/-- C6 witness: two healthy write instances, counter starting at 0 — the
first three selections return instance 0, instance 1, instance 0. -/
theorem C6_witness :
    nth_selection SchedulerStrategy.LoadBalance
      [(write_inst, InstanceHealthStatus.Healthy),
       (write_inst2, InstanceHealthStatus.Healthy)] true 0 0 =
      Except.ok write_inst ∧
    nth_selection SchedulerStrategy.LoadBalance
      [(write_inst, InstanceHealthStatus.Healthy),
       (write_inst2, InstanceHealthStatus.Healthy)] true 0 1 =
      Except.ok write_inst2 ∧
    nth_selection SchedulerStrategy.LoadBalance
      [(write_inst, InstanceHealthStatus.Healthy),
       (write_inst2, InstanceHealthStatus.Healthy)] true 0 2 =
      Except.ok write_inst := by
  have h := C6_round_robin
    [(write_inst, InstanceHealthStatus.Healthy),
     (write_inst2, InstanceHealthStatus.Healthy)] true 0 (by decide)
  refine ⟨?_, ?_, ?_⟩
  · rw [h.1 0]; rfl
  · rw [h.1 1]; rfl
  · rw [h.1 2]; rfl

/-! ## Fallback-instance lifecycle (C4) -/

theorem create_test_instance_slot_inv (slot : Option TestInstanceConfig)
    (now : Nat) :
    (create_test_instance slot now).2 = some (create_test_instance slot now).1 ∧
    (create_test_instance slot now).1.state = TestInstanceState.Created := by
  cases slot with
  | none => exact ⟨rfl, rfl⟩
  | some inst =>
      by_cases hc : inst.state = TestInstanceState.Created ∧ now < inst.expired_at
      · rw [show create_test_instance (some inst) now = (inst, some inst) from by
          simp only [create_test_instance, if_pos hc]]
        exact ⟨rfl, hc.1⟩
      · rw [show create_test_instance (some inst) now =
            (fresh_test_instance now, some (fresh_test_instance now)) from by
          simp only [create_test_instance, if_neg hc]]
        exact ⟨rfl, rfl⟩

/-- C4: `create_test_instance` is idempotent while the current record is
`Created` and unexpired — a second call before `expired_at` returns the
identical record and leaves the slot unchanged — and any call on an
`Expired`/non-`Created`/absent record, or at `now >= expired_at`, installs
and returns a brand-new record with `created_at = now`,
`expired_at = now + 172800` and state `Created`, replacing the slot. -/
theorem C4_fallback_lifecycle :
    ∀ (slot : Option TestInstanceConfig) (now : Nat),
      (∀ inst, slot = some inst → inst.state = TestInstanceState.Created →
        now < inst.expired_at →
        create_test_instance slot now = (inst, slot)) ∧
      (∀ t2, t2 < (create_test_instance slot now).1.expired_at →
        create_test_instance (create_test_instance slot now).2 t2 =
          ((create_test_instance slot now).1, (create_test_instance slot now).2)) ∧
      (∀ inst, slot = some inst →
        (inst.state ≠ TestInstanceState.Created ∨ inst.expired_at ≤ now) →
        create_test_instance slot now =
          (fresh_test_instance now, some (fresh_test_instance now))) ∧
      (slot = none →
        create_test_instance slot now =
          (fresh_test_instance now, some (fresh_test_instance now))) ∧
      ((fresh_test_instance now).created_at = now ∧
       (fresh_test_instance now).expired_at = now + 172800 ∧
       (fresh_test_instance now).state = TestInstanceState.Created) := by
  intro slot now
  refine ⟨?_, ?_, ?_, ?_, ?_⟩
  · intro inst h hstate hexp
    subst h
    simp only [create_test_instance, if_pos (And.intro hstate hexp)]
  · intro t2 ht2
    obtain ⟨hslot, hstate⟩ := create_test_instance_slot_inv slot now
    set r := create_test_instance slot now with hr
    rw [hslot]
    show create_test_instance (some r.1) t2 = (r.1, some r.1)
    simp only [create_test_instance, if_pos (And.intro hstate ht2)]
  · intro inst h hbad
    subst h
    have hneg : ¬ (inst.state = TestInstanceState.Created ∧
        now < inst.expired_at) := by
      rintro ⟨h1, h2⟩
      rcases hbad with hb | hb
      · exact hb h1
      · exact absurd h2 (Nat.not_lt.mpr hb)
    simp only [create_test_instance, if_neg hneg]
  · intro h
    subst h
    rfl
  · exact ⟨rfl, rfl, rfl⟩

/-- C4 witness: reuse of an unexpired record at time 200, and replacement at
time 172900 (which is exactly the record's `expired_at`). -/
theorem C4_witness :
    create_test_instance (some (fresh_test_instance 100)) 200 =
      (fresh_test_instance 100, some (fresh_test_instance 100)) ∧
    create_test_instance (some (fresh_test_instance 100)) 172900 =
      (fresh_test_instance 172900, some (fresh_test_instance 172900)) :=
  ⟨(C4_fallback_lifecycle (some (fresh_test_instance 100)) 200).1
      (fresh_test_instance 100) rfl rfl (by decide),
   ((C4_fallback_lifecycle (some (fresh_test_instance 100)) 172900).2.2).1
      (fresh_test_instance 100) rfl (Or.inr (by decide))⟩

/-! ## Cache round-trip lemmas (C8) -/

theorem append_to_file_cons_eq (b : Nat) (lines : List CacheEntry)
    (rest : CacheDir) (entry : CacheEntry) :
    append_to_file ((b, lines) :: rest) b entry =
      (b, lines ++ [entry]) :: rest := by
  simp [append_to_file]

theorem append_to_file_cons_ne (b : Nat) (lines : List CacheEntry)
    (rest : CacheDir) (bucket : Nat) (entry : CacheEntry) (hb : b ≠ bucket) :
    append_to_file ((b, lines) :: rest) bucket entry =
      (b, lines) :: append_to_file rest bucket entry := by
  simp [append_to_file, hb]

theorem read_all_cache_cons (b : Nat) (lines : List CacheEntry)
    (rest : CacheDir) :
    read_all_cache ((b, lines) :: rest) = lines ++ read_all_cache rest := rfl

theorem write_cache_eq (cm : CacheManager) (dir : CacheDir) (now : Nat)
    (data_type : CacheDataType) :
    write_cache cm dir now data_type =
      append_to_file dir (cache_file_bucket cm now)
        { timestamp := now, data_type := data_type } := rfl

theorem write_cache_all_cons (cm : CacheManager) (dir : CacheDir)
    (w : Nat × CacheDataType) (rest : List (Nat × CacheDataType)) :
    write_cache_all cm dir (w :: rest) =
      write_cache_all cm (write_cache cm dir w.1 w.2) rest := rfl

theorem append_to_file_fst (dir : CacheDir) (bucket : Nat) (entry : CacheEntry) :
    (append_to_file dir bucket entry).map Prod.fst =
      if bucket ∈ dir.map Prod.fst then dir.map Prod.fst
      else dir.map Prod.fst ++ [bucket] := by
  induction dir with
  | nil => simp [append_to_file]
  | cons f rest ih =>
      obtain ⟨b, lines⟩ := f
      by_cases hb : b = bucket
      · subst hb
        rw [append_to_file_cons_eq]
        simp
      · rw [append_to_file_cons_ne b lines rest bucket entry hb]
        have hiff : (bucket ∈ (b, lines).1 :: rest.map Prod.fst) ↔
            bucket ∈ rest.map Prod.fst := by
          constructor
          · intro h
            rcases List.mem_cons.mp h with h | h
            · exact absurd h.symm hb
            · exact h
          · intro h
            exact List.mem_cons_of_mem _ h
        rw [List.map_cons, List.map_cons, ih]
        by_cases hmem : bucket ∈ rest.map Prod.fst
        · rw [if_pos hmem, if_pos (hiff.mpr hmem)]
        · rw [if_neg hmem, if_neg (fun hc => hmem (hiff.mp hc))]
          simp

theorem read_all_append_to_file (dir : CacheDir) (bucket : Nat)
    (entry : CacheEntry) :
    (read_all_cache (append_to_file dir bucket entry)).Perm
      (entry :: read_all_cache dir) := by
  induction dir with
  | nil => simp [append_to_file, read_all_cache]
  | cons f rest ih =>
      obtain ⟨b, lines⟩ := f
      by_cases hb : b = bucket
      · subst hb
        rw [append_to_file_cons_eq, read_all_cache_cons, read_all_cache_cons,
          List.append_assoc]
        exact List.perm_middle
      · rw [append_to_file_cons_ne b lines rest bucket entry hb,
          read_all_cache_cons, read_all_cache_cons]
        exact (ih.append_left lines).trans List.perm_middle

theorem write_cache_all_fst_nodup (cm : CacheManager)
    (writes : List (Nat × CacheDataType)) :
    ∀ dir : CacheDir, (dir.map Prod.fst).Nodup →
      ((write_cache_all cm dir writes).map Prod.fst).Nodup := by
  induction writes with
  | nil => intro dir h; exact h
  | cons w rest ih =>
      intro dir h
      rw [write_cache_all_cons]
      apply ih
      rw [write_cache_eq, append_to_file_fst]
      by_cases hmem : cache_file_bucket cm w.1 ∈ dir.map Prod.fst
      · rwa [if_pos hmem]
      · rw [if_neg hmem]
        rw [List.nodup_append]
        exact ⟨h, List.nodup_singleton _, by
          intro a ha hb
          simp only [List.mem_singleton] at hb
          subst hb
          exact hmem ha⟩

theorem write_cache_all_fst_toFinset (cm : CacheManager)
    (writes : List (Nat × CacheDataType)) :
    ∀ dir : CacheDir,
      ((write_cache_all cm dir writes).map Prod.fst).toFinset =
        (dir.map Prod.fst).toFinset ∪
          (writes.map (fun w => cache_file_bucket cm w.1)).toFinset := by
  induction writes with
  | nil => intro dir; simp [write_cache_all]
  | cons w rest ih =>
      intro dir
      have step : ((write_cache cm dir w.1 w.2).map Prod.fst).toFinset =
          insert (cache_file_bucket cm w.1) (dir.map Prod.fst).toFinset := by
        rw [write_cache_eq, append_to_file_fst]
        by_cases hmem : cache_file_bucket cm w.1 ∈ dir.map Prod.fst
        · rw [if_pos hmem]
          rw [Finset.insert_eq_self.mpr (List.mem_toFinset.mpr hmem)]
        · rw [if_neg hmem]
          rw [List.toFinset_append]
          simp only [List.toFinset_cons, List.toFinset_nil, insert_emptyc_eq]
          rw [Finset.union_comm]
          exact (Finset.insert_eq _ _).symm
      rw [write_cache_all_cons, ih (write_cache cm dir w.1 w.2), step,
        List.map_cons, List.toFinset_cons, Finset.insert_union,
        Finset.union_insert]

theorem read_all_write_cache_all (cm : CacheManager)
    (writes : List (Nat × CacheDataType)) :
    ∀ dir : CacheDir,
      (read_all_cache (write_cache_all cm dir writes)).Perm
        (read_all_cache dir ++
          writes.map (fun w => { timestamp := w.1, data_type := w.2 : CacheEntry })) := by
  induction writes with
  | nil => intro dir; simp [write_cache_all]
  | cons w rest ih =>
      intro dir
      rw [show write_cache_all cm dir (w :: rest) =
        write_cache_all cm (write_cache cm dir w.1 w.2) rest from rfl]
      refine (ih (write_cache cm dir w.1 w.2)).trans ?_
      have h1 : (read_all_cache (write_cache cm dir w.1 w.2)).Perm
          ({ timestamp := w.1, data_type := w.2 : CacheEntry } :: read_all_cache dir) :=
        read_all_append_to_file dir (cache_file_bucket cm w.1) _
      refine (h1.append_right _).trans ?_
      simp only [List.map_cons, List.cons_append]
      exact List.perm_middle.symm

/-- C8: starting from an empty cache directory, every `write_cache` call
appends one serialized entry to the bucket file of `floor(now / 3600s)`
(named `{temp_file_prefix}_{bucket}.jsonl`), so a sequence of writes whose
timestamps span exactly two bucket values produces exactly two bucket
files, and `read_all_cache` afterwards returns exactly the written entries
— all of them, in no guaranteed cross-file order (the result is a
permutation of the writes). -/
theorem C8_cache_round_trip :
    ∀ (cm : CacheManager) (writes : List (Nat × CacheDataType)),
      ((writes.map (fun w => cache_file_bucket cm w.1)).toFinset.card = 2 →
        (write_cache_all cm [] writes).length = 2) ∧
      (read_all_cache (write_cache_all cm [] writes)).Perm
        (writes.map (fun w =>
          { timestamp := w.1, data_type := w.2 : CacheEntry })) := by
  intro cm writes
  constructor
  · intro hcard
    have hnodup := write_cache_all_fst_nodup cm writes [] (by simp)
    have hfin := write_cache_all_fst_toFinset cm writes []
    simp only [List.map_nil, List.toFinset_nil, Finset.empty_union] at hfin
    have hlen : ((write_cache_all cm [] writes).map Prod.fst).length = 2 := by
      rw [← List.toFinset_card_of_nodup hnodup, hfin, hcard]
    simpa using hlen
  · have h := read_all_write_cache_all cm writes []
    simpa [read_all_cache] using h

/-- C8 witness: three writes at timestamps 0, 10 and 3600 under the default
one-hour bucket width span two buckets (0 and 1), produce two files, and
read back as a permutation of the three written entries. -/
theorem C8_witness :
    (write_cache_all CacheManager.mk_default []
      [(0, sample_payload "a"), (10, sample_payload "b"),
       (3600, sample_payload "c")]).length = 2 ∧
    (read_all_cache (write_cache_all CacheManager.mk_default []
      [(0, sample_payload "a"), (10, sample_payload "b"),
       (3600, sample_payload "c")])).Perm
      [{ timestamp := 0, data_type := sample_payload "a" },
       { timestamp := 10, data_type := sample_payload "b" },
       { timestamp := 3600, data_type := sample_payload "c" }] :=
  ⟨(C8_cache_round_trip CacheManager.mk_default
      [(0, sample_payload "a"), (10, sample_payload "b"),
       (3600, sample_payload "c")]).1 (by rfl),
   (C8_cache_round_trip CacheManager.mk_default
      [(0, sample_payload "a"), (10, sample_payload "b"),
       (3600, sample_payload "c")]).2⟩

/-- C9: for every ciphertext string whose base64 decoding succeeds with
fewer than 12 bytes — the empty string decodes to 0 bytes — the
`combined.split_at(12)` call in `decrypt_aes_256_gcm` is reached with
`mid > len` and the function panics instead of returning an `Err`,
whatever the key-derivation and AEAD collaborators would do. -/
theorem C9_short_base64_panics :
    ∀ (oracle : AeadOracle) (encrypted_data password : String) (bs : List Nat),
      base64_decode encrypted_data = some bs → bs.length < 12 →
      decrypt_aes_256_gcm oracle encrypted_data password = PanicOr.panicked := by
  intro oracle encrypted_data password bs hdec hlen
  unfold decrypt_aes_256_gcm
  rw [hdec]
  simp [hlen]

/-- C9 witness: the empty ciphertext string base64-decodes to the empty byte
sequence and makes `decrypt_aes_256_gcm` panic. -/
theorem C9_witness :
    decrypt_aes_256_gcm sample_aead_oracle "" "pw1234567890" =
      PanicOr.panicked ∧
    base64_decode "" = some [] :=
  ⟨C9_short_base64_panics sample_aead_oracle "" "pw1234567890" [] rfl
      (by decide),
   rfl⟩

/-- C1 counterexample: a request whose role permits encryption and whose
cipher succeeds, whose instance selection and backend write call both
succeed, but whose write response body fails to parse
(`response.json().await?` in the source), makes `encrypt` return an error
— so cipher failures and role violations are NOT the only request
errors. -/
theorem C1_counterexample :
    service_encrypt "mixed" sample_encrypt_request (Except.ok "ciphertext")
      (Except.ok write_inst) (fun _ => WriteCallResult.callOk none)
      (Except.ok ()) (Except.ok (fresh_test_instance 0)) (Except.ok ()) =
      Except.error ServiceError.responseParse := rfl

/-- C1 (amended): when the role permits encryption and the cipher succeeds,
`encrypt` returns `Ok` with the locally computed ciphertext and
`resource_id = None` whenever instance selection fails or the backend
write call fails — regardless of the cache-write, fallback-creation and
cache-replay outcomes, whose errors are only logged — and returns the
backend-assigned id on full success; the only request errors are role
violations, cipher failures, and a response-body parse failure after a
successful backend write call. -/
theorem C1_encrypt_error_surface :
    ∀ (role : String) (request : EncryptRequest)
      (cipher_result : Except String String)
      (selection : Except String CrudApiInstance)
      (write_call : CrudApiInstance → WriteCallResult)
      (cache_write : Except String Unit)
      (create_ti : Except String TestInstanceConfig)
      (import_cache : Except String Unit),
      ((role ≠ "encrypt" ∧ role ≠ "mixed") →
        service_encrypt role request cipher_result selection write_call
          cache_write create_ti import_cache =
          Except.error ServiceError.roleNotAllowed) ∧
      (∀ msg, (role = "encrypt" ∨ role = "mixed") →
        cipher_result = Except.error msg →
        service_encrypt role request cipher_result selection write_call
          cache_write create_ti import_cache =
          Except.error (ServiceError.cipher msg)) ∧
      (∀ ed, (role = "encrypt" ∨ role = "mixed") →
        cipher_result = Except.ok ed →
        (∀ msg, selection = Except.error msg →
          service_encrypt role request cipher_result selection write_call
            cache_write create_ti import_cache =
            Except.ok { encrypted_data := ed, resource_id := none }) ∧
        (∀ inst, selection = Except.ok inst →
          write_call inst = WriteCallResult.callFailed →
          service_encrypt role request cipher_result selection write_call
            cache_write create_ti import_cache =
            Except.ok { encrypted_data := ed, resource_id := none }) ∧
        (∀ inst, selection = Except.ok inst →
          write_call inst = WriteCallResult.callOk none →
          service_encrypt role request cipher_result selection write_call
            cache_write create_ti import_cache =
            Except.error ServiceError.responseParse) ∧
        (∀ inst rid, selection = Except.ok inst →
          write_call inst = WriteCallResult.callOk (some rid) →
          service_encrypt role request cipher_result selection write_call
            cache_write create_ti import_cache =
            Except.ok { encrypted_data := ed, resource_id := rid })) := by
  intro role request cipher_result selection write_call cache_write
    create_ti import_cache
  refine ⟨?_, ?_, ?_⟩
  · intro hr
    simp only [service_encrypt, if_pos hr]
  · intro msg hrole hcipher
    have hcond : ¬ (role ≠ "encrypt" ∧ role ≠ "mixed") := by
      rcases hrole with h | h
      · exact fun hc => hc.1 h
      · exact fun hc => hc.2 h
    subst hcipher
    simp only [service_encrypt, if_neg hcond]
  · intro ed hrole hcipher
    have hcond : ¬ (role ≠ "encrypt" ∧ role ≠ "mixed") := by
      rcases hrole with h | h
      · exact fun hc => hc.1 h
      · exact fun hc => hc.2 h
    subst hcipher
    refine ⟨?_, ?_, ?_, ?_⟩
    · intro msg hsel
      subst hsel
      simp only [service_encrypt, if_neg hcond]
    · intro inst hsel hw
      subst hsel
      simp only [service_encrypt, if_neg hcond, hw]
    · intro inst hsel hw
      subst hsel
      simp only [service_encrypt, if_neg hcond, hw]
    · intro inst rid hsel hw
      subst hsel
      simp only [service_encrypt, if_neg hcond, hw]

/-- C1 (amended) witness: ciphertext is returned with no resource id even
when selection fails AND the cache write, fallback creation and cache
replay all fail. -/
theorem C1_witness :
    service_encrypt "encrypt" sample_encrypt_request (Except.ok "ct")
      (Except.error "no healthy instance") (fun _ => WriteCallResult.callFailed)
      (Except.error "disk full") (Except.error "create failed")
      (Except.error "import failed") =
      Except.ok { encrypted_data := "ct", resource_id := none } :=
  ((C1_encrypt_error_surface "encrypt" sample_encrypt_request (Except.ok "ct")
      (Except.error "no healthy instance") (fun _ => WriteCallResult.callFailed)
      (Except.error "disk full") (Except.error "create failed")
      (Except.error "import failed")).2.2
    "ct" (Or.inl rfl) rfl).1 "no healthy instance" rfl

/-- C3: when the role permits decryption and the request carries a resource
id, any failure of instance selection or of the backend fetch call makes
`decrypt` use the `encrypted_data` supplied in the request instead of
failing; decryption then runs locally on that ciphertext, and a cipher
failure is surfaced to the caller as an error. -/
theorem C3_decrypt_falls_back_to_request :
    ∀ (role : String) (request : DecryptRequest)
      (selection : Except String CrudApiInstance)
      (fetch_call : CrudApiInstance → FetchCallResult)
      (cipher : String → String → Except String String)
      (cache_write : Except String Unit) (rid : String),
      (role = "decrypt" ∨ role = "mixed") →
      request.resource_id = some rid →
      ((∃ msg, selection = Except.error msg) ∨
       (∃ inst, selection = Except.ok inst ∧
          fetch_call inst = FetchCallResult.callFailed)) →
      service_decrypt role request selection fetch_call cipher cache_write =
        (match cipher request.encrypted_data request.password with
         | Except.ok data => Except.ok { data := data, resource_id := some rid }
         | Except.error e => Except.error (ServiceError.cipher e)) := by
  intro role request selection fetch_call cipher cache_write rid hrole hrid hfail
  have hcond : ¬ (role ≠ "decrypt" ∧ role ≠ "mixed") := by
    rcases hrole with h | h
    · exact fun hc => hc.1 h
    · exact fun hc => hc.2 h
  rcases hfail with ⟨msg, hsel⟩ | ⟨inst, hsel, hfetch⟩
  · subst hsel
    simp only [service_decrypt, if_neg hcond, hrid]
    cases cipher request.encrypted_data request.password <;> rfl
  · subst hsel
    simp only [service_decrypt, if_neg hcond, hrid, hfetch]
    cases cipher request.encrypted_data request.password <;> rfl

/-- C3 witness: with a resource id present, selection failing and a cipher
oracle that decrypts the request-supplied ciphertext, decrypt returns the
plaintext; with a failing cipher, the failure is surfaced as an error. -/
theorem C3_witness :
    service_decrypt "mixed" sample_decrypt_request
      (Except.error "no healthy instance") (fun _ => FetchCallResult.callFailed)
      (fun ed _ => if ed = sample_decrypt_request.encrypted_data
        then Except.ok "secret" else Except.error "wrong ciphertext")
      (Except.ok ()) =
      Except.ok { data := "secret", resource_id := some "id-42" } ∧
    service_decrypt "mixed" sample_decrypt_request
      (Except.ok read_inst) (fun _ => FetchCallResult.callFailed)
      (fun _ _ => Except.error "bad password") (Except.ok ()) =
      Except.error (ServiceError.cipher "bad password") := by
  constructor
  · rw [C3_decrypt_falls_back_to_request "mixed" sample_decrypt_request
      (Except.error "no healthy instance") (fun _ => FetchCallResult.callFailed)
      (fun ed _ => if ed = sample_decrypt_request.encrypted_data
        then Except.ok "secret" else Except.error "wrong ciphertext")
      (Except.ok ()) "id-42" (Or.inr rfl) rfl
      (Or.inl ⟨"no healthy instance", rfl⟩)]
    rfl
  · rw [C3_decrypt_falls_back_to_request "mixed" sample_decrypt_request
      (Except.ok read_inst) (fun _ => FetchCallResult.callFailed)
      (fun _ _ => Except.error "bad password") (Except.ok ()) "id-42"
      (Or.inr rfl) rfl (Or.inr ⟨read_inst, rfl, rfl⟩)]

/-! ## Configuration validation (C10) -/

theorem validate_single_not_one (config : AppConfig)
    (hstrat : config.crud_api.strategy = SchedulerStrategy.Single)
    (hlen : config.crud_api.instances.length ≠ 1) :
    ∃ msg, validate config = Except.error msg := by
  unfold validate
  split
  · exact ⟨_, rfl⟩
  · split
    · exact ⟨_, rfl⟩
    · split
      · exact ⟨_, rfl⟩
      · rcases hv : validate_instances config.crud_api.instances with msg | u
        · exact ⟨msg, rfl⟩
        · rw [hstrat]
          exact ⟨"single mode requires exactly one instance", rfl⟩

/-- C10: in every environment where `CRUD_API_BACKEND_TYPE` is "single",
`AppConfig::from_env` (when it succeeds) builds exactly two instances —
one "write", one "read" — under strategy `Single`, while
`AppConfig::validate` demands exactly one instance for `Single`; so a
configuration loaded in single mode always fails validation (and
`main` aborts on `validate().expect(..)` before serving traffic). -/
theorem C10_single_mode_invalid :
    ∀ (env : Env) (config : AppConfig),
      env_var env "CRUD_API_BACKEND_TYPE" = some "single" →
      from_env env = Except.ok config →
      config.crud_api.strategy = SchedulerStrategy.Single ∧
      config.crud_api.instances.length = 2 ∧
      config.crud_api.instances.map CrudApiInstance.instance_type =
        ["write", "read"] ∧
      ∃ msg, validate config = Except.error msg := by
  intro env config henv hcfg
  have hbt : env_or env "CRUD_API_BACKEND_TYPE" "read_write_split" =
      "single" := by
    rw [env_or, env_var] at *
    rw [henv]
    rfl
  simp only [from_env] at hcfg
  rw [hbt] at hcfg
  simp only [reduceIte] at hcfg
  iterate 14 (try (split at hcfg <;> try simp at hcfg))
  subst hcfg
  refine ⟨rfl, rfl, rfl, ?_⟩
  exact validate_single_not_one _ rfl (by simp)

/-- C10 witness: the theorem applied to a concrete single-mode environment,
together with the concrete configuration it loads to. -/
theorem C10_witness :
    from_env sample_single_env = Except.ok single_mode_config ∧
    single_mode_config.crud_api.strategy = SchedulerStrategy.Single ∧
    single_mode_config.crud_api.instances.length = 2 ∧
    ∃ msg, validate single_mode_config = Except.error msg := by
  have hok : from_env sample_single_env = Except.ok single_mode_config := by
    rfl
  have h := C10_single_mode_invalid sample_single_env single_mode_config
    rfl hok
  exact ⟨hok, h.1, h.2.1, h.2.2.2⟩

end EncSvc
